import Mathlib

/- Verification of the facets filter-expression builder of the
labrinth-client repository (Go package facets).

The package builds the string value of the search endpoint's facets query
parameter.  Its data model is embedded here shallowly:

  * facetProp        -> FacetProp: a property comparison holding a fixed
                        key and the list of already rendered clauses
                        (Go field state).
  * the six operator  -> FacetProp.equal, FacetProp.notEqual, FacetProp.less,
    methods             FacetProp.lessOrEqual, FacetProp.greater,
                        FacetProp.greaterOrEqual, each a fold over the
                        operand list mirroring the Go range loop that
                        appends one rendered quoted clause per operand.
  * propList.String  -> propListString, comma join of member strings.
  * facets           -> Facets with its unused field state and the field
                        props, the list of groups.
  * facets.And       -> Facets.and, appending one group.
  * facets.String    -> Facets.toString, bracket-wrapped comma join.
  * New              -> New.
  * newFacetProp and the package-level constructors ProjectType, Versions,
    Categories, ClientSide, ServerSide, OpenSource; pointer aliasing of
    constructed instances is modelled by a Store of instances addressed
    by index (allocFacetProp, equalAt).

strings.Join of the Go standard library is embedded as stringsJoin. -/

/-- Go strings.Join: the empty list joins to the empty string, otherwise the
first element is followed by the separator-prefixed remaining elements. -/
def stringsJoin (elems : List String) (sep : String) : String :=
  match elems with
  | [] => ""
  | x :: xs => xs.foldl (fun acc e => acc ++ sep ++ e) x

/-- The facetProp struct: field key is the property name, field state holds
the rendered clauses, e.g. ["\"categories=fabric\"", "\"categories=quilt\""]. -/
structure FacetProp where
  key : String
  state : List String
deriving DecidableEq, Repr

/-- facetProp.String: joins the rendered clauses with commas. -/
def FacetProp.toString (f : FacetProp) : String :=
  stringsJoin f.state ","

/-- facetProp.Equal: for each operand v appends the clause "<key>=<v>"
wrapped in double quotes. -/
def FacetProp.equal (f : FacetProp) (s : List String) : FacetProp :=
  s.foldl (fun acc v => { acc with state := acc.state ++ ["\"" ++ acc.key ++ "=" ++ v ++ "\""] }) f

/-- facetProp.NotEqual: for each operand v appends the clause "<key>!=<v>"
wrapped in double quotes. -/
def FacetProp.notEqual (f : FacetProp) (s : List String) : FacetProp :=
  s.foldl (fun acc v => { acc with state := acc.state ++ ["\"" ++ acc.key ++ "!=" ++ v ++ "\""] }) f

/-- facetProp.Less: for each operand v appends the clause "<key><<v>"
wrapped in double quotes. -/
def FacetProp.less (f : FacetProp) (s : List String) : FacetProp :=
  s.foldl (fun acc v => { acc with state := acc.state ++ ["\"" ++ acc.key ++ "<" ++ v ++ "\""] }) f

/-- facetProp.LessOrEqual: for each operand v appends the clause "<key><=<v>"
wrapped in double quotes. -/
def FacetProp.lessOrEqual (f : FacetProp) (s : List String) : FacetProp :=
  s.foldl (fun acc v => { acc with state := acc.state ++ ["\"" ++ acc.key ++ "<=" ++ v ++ "\""] }) f

/-- facetProp.Greater: for each operand v appends the clause "<key>><v>"
wrapped in double quotes. -/
def FacetProp.greater (f : FacetProp) (s : List String) : FacetProp :=
  s.foldl (fun acc v => { acc with state := acc.state ++ ["\"" ++ acc.key ++ ">" ++ v ++ "\""] }) f

/-- facetProp.GreaterOrEqual: for each operand v appends the clause
"<key>>=<v>" wrapped in double quotes. -/
def FacetProp.greaterOrEqual (f : FacetProp) (s : List String) : FacetProp :=
  s.foldl (fun acc v => { acc with state := acc.state ++ ["\"" ++ acc.key ++ ">=" ++ v ++ "\""] }) f

/-- newFacetProp key returns a constructor producing a fresh instance with
that key and an empty clause list. -/
def newFacetProp (key : String) : Unit → FacetProp :=
  fun _ => { key := key, state := [] }

/-- Package-level constructor ProjectType = newFacetProp("project_type"). -/
def ProjectType : Unit → FacetProp := newFacetProp "project_type"

/-- Package-level constructor Versions = newFacetProp("versions"). -/
def Versions : Unit → FacetProp := newFacetProp "versions"

/-- Package-level constructor Categories = newFacetProp("categories"). -/
def Categories : Unit → FacetProp := newFacetProp "categories"

/-- Package-level constructor ClientSide = newFacetProp("client_side"). -/
def ClientSide : Unit → FacetProp := newFacetProp "client_side"

/-- Package-level constructor ServerSide = newFacetProp("server_side"). -/
def ServerSide : Unit → FacetProp := newFacetProp "server_side"

/-- Package-level constructor OpenSource = newFacetProp("open_source"). -/
def OpenSource : Unit → FacetProp := newFacetProp "open_source"

/-- propList.String: maps each member to its own string and joins with
commas. -/
def propListString (p : List FacetProp) : String :=
  stringsJoin (p.map (fun q => FacetProp.toString q)) ","

/-- The facets struct: field state is declared in the source but never
used; field props holds the ordered groups. -/
structure Facets where
  state : List String
  props : List (List FacetProp)
deriving DecidableEq, Repr

/-- facets.And: appends the supplied comparisons as one new group. -/
def Facets.and (f : Facets) (props : List FacetProp) : Facets :=
  { f with props := f.props ++ [props] }

/-- facets.String: wraps each group's joined string in brackets, joins the
groups with commas and wraps the whole in one outer bracket pair. -/
def Facets.toString (f : Facets) : String :=
  "[" ++ stringsJoin (f.props.map (fun e => "[" ++ propListString e ++ "]")) "," ++ "]"

/-- The bracket-wrapping of one group, as performed inside facets.String. -/
def groupWrap (e : List FacetProp) : String :=
  "[" ++ propListString e ++ "]"

/-- New: starts from the zero value of facets and, when at least one
comparison is supplied, adds them as one initial group. -/
def New (props : List FacetProp) : Facets :=
  if props.length == 0 then { state := [], props := [] }
  else Facets.and { state := [], props := [] } props

/-- A heap of facetProp instances: Go pointers returned by the constructors
are modelled as indices into this store. -/
abbrev Store := List FacetProp

/-- Calling a constructor made by newFacetProp: allocates a fresh instance
with the given key and empty clause list, returning the new store and the
address of the instance. -/
def allocFacetProp (key : String) (σ : Store) : Store × Nat :=
  (σ ++ [{ key := key, state := [] }], σ.length)

/-- Calling Equal through the pointer at address i: mutates that instance
in place, leaving every other address untouched. -/
def equalAt (σ : Store) (i : Nat) (vs : List String) : Store :=
  match σ[i]? with
  | some f => σ.set i (FacetProp.equal f vs)
  | none => σ

/-- Operations a caller can perform on a facets builder. -/
inductive BuilderOp where
  | andOp (ps : List FacetProp)
  | serializeOp
deriving DecidableEq, Repr

/-- Running a sequence of builder operations: And mutates the builder as
facets.And does, String reads the builder and emits the serialized string
without touching any field. -/
def Facets.runOps : Facets → List BuilderOp → Facets × List String
  | f, [] => (f, [])
  | f, BuilderOp.andOp ps :: rest => Facets.runOps (Facets.and f ps) rest
  | f, BuilderOp.serializeOp :: rest =>
      let r := Facets.runOps f rest
      (r.1, Facets.toString f :: r.2)

/-- A necessary condition for a string to be a clause of the output grammar
of the spec: its first character is a double quote. -/
def clauseLike (s : String) : Bool :=
  s.data.head? == some '"'

/-- A relaxation of the group production of the spec's output grammar:
either the empty bracket pair, or a bracket-wrapped comma join of a
nonempty list of clauses, where of each clause only the necessary condition
clauseLike is retained.  Every string generated by the grammar's group
production satisfies this predicate, so a string falsifying it conforms to
no group of the grammar. -/
def conformsGroup (s : String) : Prop :=
  s = "[]" ∨ ∃ cs : List String, cs ≠ [] ∧ (∀ c ∈ cs, clauseLike c = true) ∧
    s = "[" ++ stringsJoin cs "," ++ "]"

/-- Characterization of the range loop shared by the six operator methods:
folding the operand list appends one rendered clause per operand, with the
key unchanged throughout. -/
lemma clauseFold_eq (sym : String) :
    ∀ (s : List String) (f : FacetProp),
      s.foldl (fun acc v => { acc with state := acc.state ++ ["\"" ++ acc.key ++ sym ++ v ++ "\""] }) f
        = { f with state := f.state ++ s.map (fun v => "\"" ++ f.key ++ sym ++ v ++ "\"") } := by
  intro s
  induction s with
  | nil => intro f; simp
  | cons v vs ih =>
      intro f
      simp only [List.foldl_cons, List.map_cons]
      rw [ih]
      simp

/-- Closed form of facetProp.Equal. -/
lemma equal_eq (f : FacetProp) (s : List String) :
    FacetProp.equal f s
      = { f with state := f.state ++ s.map (fun v => "\"" ++ f.key ++ "=" ++ v ++ "\"") } :=
  clauseFold_eq "=" s f

/-- Closed form of facetProp.NotEqual. -/
lemma notEqual_eq (f : FacetProp) (s : List String) :
    FacetProp.notEqual f s
      = { f with state := f.state ++ s.map (fun v => "\"" ++ f.key ++ "!=" ++ v ++ "\"") } :=
  clauseFold_eq "!=" s f

/-- Closed form of facetProp.Less. -/
lemma less_eq (f : FacetProp) (s : List String) :
    FacetProp.less f s
      = { f with state := f.state ++ s.map (fun v => "\"" ++ f.key ++ "<" ++ v ++ "\"") } :=
  clauseFold_eq "<" s f

/-- Closed form of facetProp.LessOrEqual. -/
lemma lessOrEqual_eq (f : FacetProp) (s : List String) :
    FacetProp.lessOrEqual f s
      = { f with state := f.state ++ s.map (fun v => "\"" ++ f.key ++ "<=" ++ v ++ "\"") } :=
  clauseFold_eq "<=" s f

/-- Closed form of facetProp.Greater. -/
lemma greater_eq (f : FacetProp) (s : List String) :
    FacetProp.greater f s
      = { f with state := f.state ++ s.map (fun v => "\"" ++ f.key ++ ">" ++ v ++ "\"") } :=
  clauseFold_eq ">" s f

/-- Closed form of facetProp.GreaterOrEqual. -/
lemma greaterOrEqual_eq (f : FacetProp) (s : List String) :
    FacetProp.greaterOrEqual f s
      = { f with state := f.state ++ s.map (fun v => "\"" ++ f.key ++ ">=" ++ v ++ "\"") } :=
  clauseFold_eq ">=" s f

/-- The accumulator of the join fold factors out on the left. -/
lemma joinFold_shift (cs : List String) :
    ∀ a b : String,
      cs.foldl (fun x e => x ++ "," ++ e) (a ++ b)
        = a ++ cs.foldl (fun x e => x ++ "," ++ e) b := by
  induction cs with
  | nil => intro a b; rfl
  | cons e es ih =>
      intro a b
      simp only [List.foldl_cons]
      rw [String.append_assoc, String.append_assoc, ih, String.append_assoc b "," e]

/-- A comma join of a nonempty list starts with its first element. -/
lemma stringsJoin_cons (c : String) (cs : List String) :
    stringsJoin (c :: cs) "," = c ++ cs.foldl (fun x e => x ++ "," ++ e) "" := by
  show cs.foldl (fun x e => x ++ "," ++ e) c = _
  rw [(String.append_empty c).symm.trans rfl]
  rw [joinFold_shift]
  simp

/-- Claim C1: facets.String produces, for every sequence of groups, the
string obtained by joining each member comparison's own comma-joined clause
list with commas within its group, wrapping each group in one bracket pair,
joining the bracketed groups with commas and wrapping the whole sequence in
one outer bracket pair; a builder with two groups, each holding one
comparison with two Equal operands, serializes to exactly
[["k1=a","k1=b"],["k2=c","k2=d"]]. -/
theorem c1_serialize_grammar :
    (∀ (st : List String) (gs : List (List FacetProp)),
      Facets.toString (Facets.mk st gs)
        = "[" ++ stringsJoin
            (gs.map (fun g =>
              "[" ++ stringsJoin (g.map (fun p => stringsJoin p.state ",")) "," ++ "]"))
            "," ++ "]") ∧
    Facets.toString
      (Facets.and (New [FacetProp.equal (newFacetProp "k1" ()) ["a", "b"]])
        [FacetProp.equal (newFacetProp "k2" ()) ["c", "d"]])
      = "[[\"k1=a\",\"k1=b\"],[\"k2=c\",\"k2=d\"]]" := by
  constructor
  · intro st gs
    simp [Facets.toString, propListString, FacetProp.toString]
  · decide

/-- Claim C2: for every key, operand v and prior state, a single call of
each of the six operator methods with the single operand v appends exactly
one clause "<key><symbol><v>" wrapped in double quotes, with symbols
=, !=, <, <=, >, >= respectively. -/
theorem c2_single_operand_clause (key v : String) (st : List String) :
    (FacetProp.equal (FacetProp.mk key st) [v]).state
      = st ++ ["\"" ++ key ++ "=" ++ v ++ "\""] ∧
    (FacetProp.notEqual (FacetProp.mk key st) [v]).state
      = st ++ ["\"" ++ key ++ "!=" ++ v ++ "\""] ∧
    (FacetProp.less (FacetProp.mk key st) [v]).state
      = st ++ ["\"" ++ key ++ "<" ++ v ++ "\""] ∧
    (FacetProp.lessOrEqual (FacetProp.mk key st) [v]).state
      = st ++ ["\"" ++ key ++ "<=" ++ v ++ "\""] ∧
    (FacetProp.greater (FacetProp.mk key st) [v]).state
      = st ++ ["\"" ++ key ++ ">" ++ v ++ "\""] ∧
    (FacetProp.greaterOrEqual (FacetProp.mk key st) [v]).state
      = st ++ ["\"" ++ key ++ ">=" ++ v ++ "\""] := by
  refine ⟨?_, ?_, ?_, ?_, ?_, ?_⟩ <;>
    simp [equal_eq, notEqual_eq, less_eq, lessOrEqual_eq, greater_eq, greaterOrEqual_eq]

/-- Claim C3: one operator call appends one clause per operand, all with
that call's operator, so the clause count grows by the operand count; and
successive calls on the same instance, also with different operators,
accumulate their clauses in call order, each clause keeping the operator of
the call that produced it. -/
theorem c3_operand_accumulation (f : FacetProp) (vs ws : List String) :
    (FacetProp.equal f vs).state
      = f.state ++ vs.map (fun v => "\"" ++ f.key ++ "=" ++ v ++ "\"") ∧
    (FacetProp.notEqual f vs).state
      = f.state ++ vs.map (fun v => "\"" ++ f.key ++ "!=" ++ v ++ "\"") ∧
    (FacetProp.less f vs).state
      = f.state ++ vs.map (fun v => "\"" ++ f.key ++ "<" ++ v ++ "\"") ∧
    (FacetProp.lessOrEqual f vs).state
      = f.state ++ vs.map (fun v => "\"" ++ f.key ++ "<=" ++ v ++ "\"") ∧
    (FacetProp.greater f vs).state
      = f.state ++ vs.map (fun v => "\"" ++ f.key ++ ">" ++ v ++ "\"") ∧
    (FacetProp.greaterOrEqual f vs).state
      = f.state ++ vs.map (fun v => "\"" ++ f.key ++ ">=" ++ v ++ "\"") ∧
    (FacetProp.equal f vs).state.length = f.state.length + vs.length ∧
    (FacetProp.notEqual (FacetProp.equal f vs) ws).state
      = f.state ++ vs.map (fun v => "\"" ++ f.key ++ "=" ++ v ++ "\"")
          ++ ws.map (fun v => "\"" ++ f.key ++ "!=" ++ v ++ "\"") := by
  refine ⟨?_, ?_, ?_, ?_, ?_, ?_, ?_, ?_⟩ <;>
    simp [equal_eq, notEqual_eq, less_eq, lessOrEqual_eq, greater_eq, greaterOrEqual_eq]

/-- Claim C4: a builder holding zero groups serializes to exactly the
two-character string [], whatever its unused state field holds; in
particular New with no comparisons serializes to []. -/
theorem c4_empty_builder (st : List String) :
    Facets.toString (Facets.mk st []) = "[]" ∧ Facets.toString (New []) = "[]" :=
  ⟨rfl, rfl⟩

/-- Claim C5: facets.And with zero comparisons appends an empty group, and
that group serializes as a literal [] element nested inside the outer
brackets, with no suppression of empty groups. -/
theorem c5_empty_group (f : Facets) :
    (Facets.and f []).props = f.props ++ [[]] ∧
    Facets.toString (Facets.and f [])
      = "[" ++ stringsJoin (f.props.map groupWrap ++ ["[]"]) "," ++ "]" ∧
    Facets.toString (Facets.and (Facets.mk [] []) []) = "[[]]" ∧
    Facets.toString (Facets.and (New [FacetProp.equal (newFacetProp "k" ()) ["v"]]) [])
      = "[[\"k=v\"],[]]" := by
  refine ⟨rfl, ?_, by decide, by decide⟩
  simp only [Facets.toString, Facets.and]
  rw [List.map_append]
  rfl

/-- Claim C6: serialization is side-effect-free and idempotent: running two
consecutive String calls on any builder emits two identical strings and
returns the builder, with its groups and every contained comparison's
clause list, unchanged. -/
theorem c6_serialize_pure (f : Facets) :
    Facets.runOps f [BuilderOp.serializeOp, BuilderOp.serializeOp]
      = (f, [Facets.toString f, Facets.toString f]) := rfl

/-- Claim C7: every operation is total and performs no validation or
escaping: each operator method accepts every operand value, including the
empty string and strings containing quotes, commas or brackets, rendering
it verbatim into the clause, and facets.And accepts every group
composition. -/
theorem c7_total_verbatim :
    (∀ (key v : String) (st : List String),
      (FacetProp.equal (FacetProp.mk key st) [v]).state
        = st ++ ["\"" ++ key ++ "=" ++ v ++ "\""] ∧
      (FacetProp.notEqual (FacetProp.mk key st) [v]).state
        = st ++ ["\"" ++ key ++ "!=" ++ v ++ "\""] ∧
      (FacetProp.less (FacetProp.mk key st) [v]).state
        = st ++ ["\"" ++ key ++ "<" ++ v ++ "\""] ∧
      (FacetProp.lessOrEqual (FacetProp.mk key st) [v]).state
        = st ++ ["\"" ++ key ++ "<=" ++ v ++ "\""] ∧
      (FacetProp.greater (FacetProp.mk key st) [v]).state
        = st ++ ["\"" ++ key ++ ">" ++ v ++ "\""] ∧
      (FacetProp.greaterOrEqual (FacetProp.mk key st) [v]).state
        = st ++ ["\"" ++ key ++ ">=" ++ v ++ "\""]) ∧
    (∀ (f : Facets) (ps : List FacetProp), (Facets.and f ps).props = f.props ++ [ps]) ∧
    (FacetProp.equal (FacetProp.mk "k" []) [""]).state = ["\"k=\""] ∧
    (FacetProp.equal (FacetProp.mk "k" []) ["a\",]b"]).state = ["\"k=a\",]b\""] := by
  refine ⟨?_, fun f ps => rfl, by decide, by decide⟩
  intro key v st
  refine ⟨?_, ?_, ?_, ?_, ?_, ?_⟩ <;>
    simp [equal_eq, notEqual_eq, less_eq, lessOrEqual_eq, greater_eq, greaterOrEqual_eq]

/-- Claim C8: the serialized output is a pure function of the stored group
sequence, with no sorting or normalization: builders with identical group
sequences serialize identically, and two builders holding the same two
groups added in opposite orders produce different strings. -/
theorem c8_insertion_order :
    (∀ f g : Facets, f.props = g.props → Facets.toString f = Facets.toString g) ∧
    ((Facets.toString (Facets.mk []
        [[FacetProp.equal (newFacetProp "k1" ()) ["a"]],
         [FacetProp.equal (newFacetProp "k2" ()) ["b"]]])
      == Facets.toString (Facets.mk []
        [[FacetProp.equal (newFacetProp "k2" ()) ["b"]],
         [FacetProp.equal (newFacetProp "k1" ()) ["a"]]])) = false) := by
  constructor
  · intro f g h
    simp [Facets.toString, h]
  · decide

/-- Witness for claim C8: two builders sharing the group sequence but
differing in the unused state field serialize identically. -/
theorem c8_insertion_order_witness :
    Facets.toString (Facets.mk ["unused"] [[newFacetProp "k" ()]])
      = Facets.toString (Facets.mk [] [[newFacetProp "k" ()]]) :=
  c8_insertion_order.1 (Facets.mk ["unused"] [[newFacetProp "k" ()]])
    (Facets.mk [] [[newFacetProp "k" ()]]) rfl

/-- Claim C10: each package-level constructor returns a fresh instance with
its fixed key and an empty clause list; in the store model, allocation
yields a fresh address holding that instance, and appending clauses through
one address never changes the instance at any other address. -/
theorem c10_constructor_independence :
    (∀ u : Unit,
      ProjectType u = FacetProp.mk "project_type" [] ∧
      Versions u = FacetProp.mk "versions" [] ∧
      Categories u = FacetProp.mk "categories" [] ∧
      ClientSide u = FacetProp.mk "client_side" [] ∧
      ServerSide u = FacetProp.mk "server_side" [] ∧
      OpenSource u = FacetProp.mk "open_source" []) ∧
    (∀ (σ : Store) (key : String),
      ((allocFacetProp key σ).1)[(allocFacetProp key σ).2]? = some (FacetProp.mk key [])) ∧
    (∀ (σ : Store) (i j : Nat) (vs : List String), i ≠ j →
      (equalAt σ i vs)[j]? = σ[j]?) := by
  refine ⟨fun u => ⟨rfl, rfl, rfl, rfl, rfl, rfl⟩, ?_, ?_⟩
  · intro σ key
    exact List.getElem?_concat_length σ _
  · intro σ i j vs h
    simp only [equalAt]
    cases hσ : σ[i]? with
    | none => rfl
    | some p => exact List.getElem?_set_ne h

/-- Witness for claim C10: mutating the instance at address 0 leaves the
instance at address 1 unchanged. -/
theorem c10_constructor_independence_witness :
    (0 : Nat) ≠ 1 ∧
    (equalAt [FacetProp.mk "categories" [], FacetProp.mk "versions" []] 0 ["fabric"])[1]?
      = [FacetProp.mk "categories" [], FacetProp.mk "versions" []][1]? :=
  ⟨by decide,
   c10_constructor_independence.2.2
     [FacetProp.mk "categories" [], FacetProp.mk "versions" []] 0 1 ["fabric"] (by decide)⟩

/-- The bare-comma group string produced by a fresh comparison next to a
rendered one conforms to no group of the output grammar: any conforming
nonempty group starts with a double-quoted clause right after the opening
bracket, never with a comma. -/
lemma not_conformsGroup_comma : ¬ conformsGroup "[,\"key=value\"]" := by
  intro h
  rcases h with h | ⟨cs, hne, hcl, heq⟩
  · exact absurd h (by decide)
  · cases cs with
    | nil => exact hne rfl
    | cons c cs' =>
        have hcl1 : clauseLike c = true := hcl c (List.mem_cons_self c cs')
        rw [stringsJoin_cons c cs'] at heq
        have hdata := congrArg String.data heq
        simp only [String.data_append] at hdata
        cases hc : c.data with
        | nil => simp [clauseLike, hc] at hcl1
        | cons ch l =>
            rw [hc] at hdata
            simp only [List.cons_append, List.nil_append, List.append_assoc] at hdata
            injection hdata with h1 h2
            injection h2 with h3 h4
            simp [clauseLike, hc] at hcl1
            rw [hcl1] at h3
            exact absurd h3 (by decide)

/-- Claim C9: a comparison on which no operator method was ever called
renders as the empty string; a group of exactly one fresh comparison
serializes as [], a group of a fresh comparison followed by a one-clause
comparison serializes as [,"key=value"], and that bare-comma string
conforms to no group of the stated output grammar. -/
theorem c9_fresh_comparison_empty_render :
    FacetProp.toString (newFacetProp "key" ()) = "" ∧
    groupWrap [newFacetProp "key" ()] = "[]" ∧
    Facets.toString (Facets.mk [] [[newFacetProp "key" ()]]) = "[[]]" ∧
    groupWrap [newFacetProp "key" (), FacetProp.equal (newFacetProp "key" ()) ["value"]]
      = "[,\"key=value\"]" ∧
    Facets.toString (Facets.mk [] [[newFacetProp "key" (),
      FacetProp.equal (newFacetProp "key" ()) ["value"]]]) = "[[,\"key=value\"]]" ∧
    (conformsGroup "[,\"key=value\"]" ↔ False) :=
  ⟨by decide, by decide, by decide, by decide, by decide,
   iff_false_intro not_conformsGroup_comma⟩

/-- Witness for claim C1: the general serialization shape evaluated on one
concrete one-group builder. -/
theorem c1_serialize_grammar_witness :
    Facets.toString (Facets.mk [] [[FacetProp.mk "k" ["\"k=v\""]]])
      = "[" ++ stringsJoin
          ([[FacetProp.mk "k" ["\"k=v\""]]].map (fun g =>
            "[" ++ stringsJoin (g.map (fun p => stringsJoin p.state ",")) "," ++ "]"))
          "," ++ "]" :=
  c1_serialize_grammar.1 [] [[FacetProp.mk "k" ["\"k=v\""]]]

/-- Witness for claim C2: one Equal call with one operand on a fresh
categories comparison. -/
theorem c2_single_operand_clause_witness :
    (FacetProp.equal (FacetProp.mk "categories" []) ["fabric"]).state
      = [] ++ ["\"" ++ "categories" ++ "=" ++ "fabric" ++ "\""] :=
  (c2_single_operand_clause "categories" "fabric" []).1

/-- Witness for claim C3: one Equal call with one operand evaluated through
the accumulation law. -/
theorem c3_operand_accumulation_witness :
    (FacetProp.equal (FacetProp.mk "versions" []) ["1.19.4"]).state
      = (FacetProp.mk "versions" []).state
          ++ ["1.19.4"].map (fun v =>
            "\"" ++ (FacetProp.mk "versions" []).key ++ "=" ++ v ++ "\"") :=
  (c3_operand_accumulation (FacetProp.mk "versions" []) ["1.19.4"] []).1

/-- Witness for claim C4: a zero-group builder with a nonempty unused state
field still serializes to the empty outer bracket pair. -/
theorem c4_empty_builder_witness :
    Facets.toString (Facets.mk ["x"] []) = "[]" :=
  (c4_empty_builder ["x"]).1

/-- Witness for claim C5: adding an empty group to the empty builder
appends one empty group. -/
theorem c5_empty_group_witness :
    (Facets.and (Facets.mk [] []) []).props = (Facets.mk [] []).props ++ [[]] :=
  (c5_empty_group (Facets.mk [] [])).1

/-- Witness for claim C6: two serializations of the empty builder. -/
theorem c6_serialize_pure_witness :
    Facets.runOps (Facets.mk [] []) [BuilderOp.serializeOp, BuilderOp.serializeOp]
      = ((Facets.mk [] []),
         [Facets.toString (Facets.mk [] []), Facets.toString (Facets.mk [] [])]) :=
  c6_serialize_pure (Facets.mk [] [])

/-- Witness for claim C7: the Equal clause rendered for one concrete key
and operand. -/
theorem c7_total_verbatim_witness :
    (FacetProp.equal (FacetProp.mk "k" []) ["v"]).state
      = [] ++ ["\"" ++ "k" ++ "=" ++ "v" ++ "\""] :=
  (c7_total_verbatim.1 "k" "v" []).1
